import Mathlib

/-!
Shallow embedding of the `ctxio` Go package (context-aware I/O adapters,
rendezvous pipe, and bulk copy/read algorithms) together with proofs about
the behaviour of the embedded operations.

Conventions:
* Go `error` values are modelled by `Option Ctxio.Err` (`none` = `nil`).
* Byte slices are modelled by `List Nat` (the byte values) or, where only
  the length matters to the control flow, by a `Nat` length.
* Channel selects whose outcome depends on concurrent peers are modelled by
  explicit event parameters: the caller of the model supplies which select
  arm fired, and the model computes the result the Go code produces for
  that arm.
-/

namespace Ctxio

/-- The error values that appear in the package, plus `native` for any other
error produced by a wrapped handle. -/
inductive Err where
  /-- `io.EOF` -/
  | eof
  /-- `io.ErrUnexpectedEOF` -/
  | errUnexpectedEOF
  /-- `io.ErrShortBuffer` -/
  | errShortBuffer
  /-- `io.ErrShortWrite` -/
  | errShortWrite
  /-- `errInvalidWrite` (ctxio.go:52) -/
  | errInvalidWrite
  /-- `io.ErrClosedPipe` -/
  | errClosedPipe
  /-- `fs.ErrClosed` -/
  | errClosed
  /-- `context.Canceled` -/
  | canceled
  /-- `context.DeadlineExceeded` -/
  | deadlineExceeded
  /-- any other native I/O error -/
  | native (code : Nat)
  deriving DecidableEq, Repr

/-! ## Rendezvous pipe (pipe.go) -/

/-- `onceError.Store` (pipe.go:15-22): keep the first stored value. -/
def onceStore (cell : Option Err) (e : Option Err) : Option Err :=
  match cell with
  | some _ => cell
  | none => e

/-- The mutable state of a `pipe` relevant to close/error resolution:
the two once-only error cells and whether `done` has been closed. -/
structure PipeState where
  rerr : Option Err
  werr : Option Err
  done : Bool
  deriving DecidableEq, Repr

/-- `pipe.readCloseError` (pipe.go:114-120): the error a stuck read
observes, given the current contents of the two error cells. -/
def readCloseError (rerr werr : Option Err) : Err :=
  match rerr, werr with
  | none, some w => w
  | _, _ => Err.errClosedPipe

/-- `pipe.writeCloseError` (pipe.go:123-129): the error a stuck write
observes, given the current contents of the two error cells. -/
def writeCloseError (rerr werr : Option Err) : Err :=
  match werr, rerr with
  | none, some r => r
  | _, _ => Err.errClosedPipe

/-- `pipe.closeRead` (pipe.go:65-72): a `nil` argument becomes
`io.ErrClosedPipe`; the read-side cell is stored once; `done` is closed;
the return value is always `nil`. -/
def closeRead (p : PipeState) (err : Option Err) : PipeState × Option Err :=
  let e := match err with
    | none => Err.errClosedPipe
    | some e => e
  ({ p with rerr := onceStore p.rerr (some e), done := true }, none)

/-- `pipe.closeWrite` (pipe.go:104-111): a `nil` argument becomes `io.EOF`;
the write-side cell is stored once; `done` is closed; returns `nil`. -/
def closeWrite (p : PipeState) (err : Option Err) : PipeState × Option Err :=
  let e := match err with
    | none => Err.eof
    | some e => e
  ({ p with werr := onceStore p.werr (some e), done := true }, none)

/-- Which arm of the three-way select in `pipe.read` (pipe.go:53-62) fired:
a pending write's data arrived on `wrCh`, the caller's context fired, or
the pipe became done. -/
inductive REvent where
  | dataAvail (bw : List Nat)
  | ctxFired
  | pipeDone
  deriving DecidableEq, Repr

/-- Everything a single `pipe.read` call produces: the returned count and
error, the bytes copied into the destination prefix, and the count
reported back to the writer on `rdCh` (if any). -/
structure ReadOutcome where
  n : Nat
  data : List Nat
  reported : Option Nat
  err : Option Err
  deriving DecidableEq, Repr

/-- `pipe.read` (pipe.go:40-63). `doneAtEntry` and `ctxAtEntry` are the
results of the two entry polls; `ev` is the arm of the final select that
fired; `dstLen` is `len(b)`. `copy(b, bw)` copies
`min (len b) (len bw)` bytes and returns that count. -/
def pipeRead (doneAtEntry ctxAtEntry : Bool) (rerr werr : Option Err)
    (ctxErr : Err) (dstLen : Nat) (ev : REvent) : ReadOutcome :=
  if doneAtEntry then ⟨0, [], none, some (readCloseError rerr werr)⟩
  else if ctxAtEntry then ⟨0, [], none, some ctxErr⟩
  else
    match ev with
    | .dataAvail bw =>
        let nr := min dstLen bw.length
        ⟨nr, bw.take dstLen, some nr, none⟩
    | .ctxFired => ⟨0, [], none, some ctxErr⟩
    | .pipeDone => ⟨0, [], none, some (readCloseError rerr werr)⟩

/-- Which arm of the select inside the `pipe.write` loop (pipe.go:89-100)
fired on a given iteration: the offered slice was taken and `nw` bytes
were consumed, the caller's context fired, or the pipe became done. -/
inductive WEvent where
  | consumed (nw : Nat)
  | ctxFired
  | pipeDone
  deriving DecidableEq, Repr

/-- The loop of `pipe.write` (pipe.go:89-101), driven by the list of select
outcomes. `n` is the accumulated handed-off count, `rem` is `len(b)` for
the remaining suffix. Returns `none` when the supplied event list is
exhausted while the loop would still be running. Note the `ctxFired` arm
returns `0, ctx.Err()` (pipe.go:96), discarding the accumulated `n`,
while the `pipeDone` arm returns `n` (pipe.go:98). -/
def writeLoop (ctxErr : Err) (rerr werr : Option Err) :
    Nat → Nat → List WEvent → Option (Nat × Option Err)
  | _, _, [] => none
  | n, rem, ev :: rest =>
    match ev with
    | .consumed nw =>
        if rem - nw > 0 then writeLoop ctxErr rerr werr (n + nw) (rem - nw) rest
        else some (n + nw, none)
    | .ctxFired => some (0, some ctxErr)
    | .pipeDone => some (n, some (writeCloseError rerr werr))

/-- `pipe.write` (pipe.go:74-102): the entry poll on `done`, the entry poll
on the context, then the offer loop. `bLen` is `len(b)`; the first loop
iteration always runs (`once`), even for an empty buffer. -/
def pipeWrite (doneAtEntry ctxAtEntry : Bool) (rerr werr : Option Err)
    (ctxErr : Err) (bLen : Nat) (events : List WEvent) :
    Option (Nat × Option Err) :=
  if doneAtEntry then some (0, some (writeCloseError rerr werr))
  else if ctxAtEntry then some (0, some ctxErr)
  else writeLoop ctxErr rerr werr 0 bLen events

/-! ## Goroutine-proxy reader (reader.go:142-264) -/

/-- The caller-visible mutable state of a `goReader`: the retained scratch
buffer and the `start`/`end` offsets delimiting locally buffered unread
bytes. -/
structure GoReaderState where
  buf : List Nat
  start : Nat
  endIdx : Nat
  deriving DecidableEq, Repr

/-- A `readResult` (reader.go:159-163) sent back by the worker. -/
structure GoReadResult where
  buf : List Nat
  n : Nat
  err : Option Err
  deriving DecidableEq, Repr

/-- The arm of the inner select of `goReader.ReadContext`
(reader.go:200-206) that fired after the request was sent. -/
inductive GInner where
  | gotRes (res : GoReadResult)
  | closedFired
  | ctxFired
  deriving DecidableEq, Repr

/-- The arm of the outer select of `goReader.ReadContext`
(reader.go:198-212) that fired: the request was sent (followed by an inner
outcome), a leftover response from an abandoned exchange was received
directly, the reader was closed, or the context fired. -/
inductive GEvent where
  | sentThen (inner : GInner)
  | directRes (res : GoReadResult)
  | closedFired
  | ctxFired
  deriving DecidableEq, Repr

/-- The full outcome of one `goReader.ReadContext` call: the state after
the call, the returned count and error, the bytes copied into the
destination, and whether the call interacted with the worker's channels or
observed the context/closed signals at all. -/
structure GoReadOutcome where
  state : GoReaderState
  n : Nat
  data : List Nat
  err : Option Err
  touchedChannels : Bool
  deriving DecidableEq, Repr

/-- Shared tail of `goReader.ReadContext` (reader.go:214-222): truncate the
response to the destination length, retain the surplus as the new local
buffer, and return the response's error. The previous state is entirely
overwritten (`r.start`, `r.end` and `r.buf` are all reassigned). -/
def goReaderAccept (_st : GoReaderState) (dataLen : Nat) (res : GoReadResult) :
    GoReadOutcome :=
  let endAmt := min dataLen res.n
  ⟨⟨res.buf, endAmt, res.n⟩, endAmt, res.buf.take endAmt, res.err, true⟩

/-- `goReader.ReadContext` (reader.go:176-223). `dataLen` is `len(data)`;
`ctxAtEntry`/`closedAtEntry` record whether those signals are ready, and
`ev` is the select outcome used when the call reaches the channel section.
The zero-length fast path (reader.go:177-179) returns before the lock, the
local buffer, and every channel or signal. -/
def goReaderReadContext (st : GoReaderState) (ctxErr : Err) (dataLen : Nat)
    (ev : GEvent) : GoReadOutcome :=
  if dataLen = 0 then ⟨st, 0, [], none, false⟩
  else if st.start ≠ st.endIdx then
    -- read from buffered data (reader.go:184-194)
    let endAmt := min (st.start + dataLen) st.endIdx
    ⟨⟨st.buf, endAmt, st.endIdx⟩, endAmt - st.start,
      (st.buf.drop st.start).take (endAmt - st.start), none, false⟩
  else
    match ev with
    | .sentThen inner =>
        match inner with
        | .gotRes res => goReaderAccept st dataLen res
        | .closedFired => ⟨st, 0, [], some Err.errClosed, true⟩
        | .ctxFired => ⟨st, 0, [], some ctxErr, true⟩
    | .directRes res => goReaderAccept st dataLen res
    | .closedFired => ⟨st, 0, [], some Err.errClosed, true⟩
    | .ctxFired => ⟨st, 0, [], some ctxErr, true⟩

/-! ## Deadline-racing adapters (reader.go:24-140, writer.go:51-163) -/

/-- `watchReader.watchCancel` / `watchWriter.watchCancel`
(reader.go:103-118, writer.go:126-141): return the context's error when it
is already done, otherwise clear the recorded error, hand the context to
the watcher, and return `nil`. -/
def watchCancel (ctxDone : Bool) (ctxErr : Err) : Option Err :=
  if ctxDone then some ctxErr else none

/-- The outcome of one `watchReader.ReadContext` or
`watchWriter.WriteContext` call: count, error, and whether the native
blocking call on the wrapped handle was performed. -/
structure WatchOutcome where
  n : Nat
  err : Option Err
  nativeIO : Bool
  deriving DecidableEq, Repr

/-- `watchReader.ReadContext` (reader.go:74-88). The statement
`if r.watchCancel(ctx); err != nil` calls `watchCancel` as the init
statement and discards its result; the condition tests the named return
`err`, which is still `nil` at that point, so the early return is never
taken and the native `r.r.Read` always runs. `nativeN`/`nativeErr` are the
native call's results and `recorded` is the watcher-recorded cancellation
reason at the time `canceled()` is evaluated. -/
def watchReaderReadContext (ctxDone : Bool) (ctxErr : Err)
    (nativeN : Nat) (nativeErr : Option Err) (recorded : Option Err) :
    WatchOutcome :=
  let _cancelResult := watchCancel ctxDone ctxErr
  let namedErr : Option Err := none
  if namedErr ≠ none then ⟨0, namedErr, false⟩
  else
    let err := match nativeErr with
      | none => none
      | some e =>
          match recorded with
          | some c => some c
          | none => some e
    ⟨nativeN, err, true⟩

/-- `watchWriter.WriteContext` (writer.go:103-117): identical structure to
`watchReaderReadContext`, including the discarded `watchCancel` result. -/
def watchWriterWriteContext (ctxDone : Bool) (ctxErr : Err)
    (nativeN : Nat) (nativeErr : Option Err) (recorded : Option Err) :
    WatchOutcome :=
  let _cancelResult := watchCancel ctxDone ctxErr
  let namedErr : Option Err := none
  if namedErr ≠ none then ⟨0, namedErr, false⟩
  else
    let err := match nativeErr with
      | none => none
      | some e =>
          match recorded with
          | some c => some c
          | none => some e
    ⟨nativeN, err, true⟩

/-! ## Adapter construction (reader.go:15-22, writer.go:30-49) -/

/-- The dynamic type of a wrapped writer, as inspected by the type switch
in `NewWriter` (writer.go:31-42); `plain` is any other `io.Writer`. -/
inductive WriterType where
  | bufioReadWriter
  | bufioWriter
  | bytesBuffer
  | stringsBuilder
  | ctxioWriter
  | plain
  deriving DecidableEq, Repr

/-- The capabilities of a wrapped handle: whether it implements the
deadline-setter interfaces and whether the neutral probe call
`Set{Read,Write}Deadline(time.Time{})` returns `nil`. -/
structure Handle where
  hasReadDeadline : Bool
  readProbeOk : Bool
  hasWriteDeadline : Bool
  writeProbeOk : Bool
  wtype : WriterType
  deriving DecidableEq, Repr

/-- The adapter chosen for a reader. -/
inductive RAdapter where
  | watch
  | goproxy
  deriving DecidableEq, Repr

/-- The adapter chosen for a writer. -/
inductive WAdapter where
  | nop
  | passthrough
  | watch
  | goproxy
  deriving DecidableEq, Repr

/-- `NewReader` (reader.go:15-22): probe `SetReadDeadline(time.Time{})`;
success selects the deadline-racing adapter, otherwise the
goroutine-proxy adapter. -/
def NewReader (h : Handle) : RAdapter :=
  if h.hasReadDeadline && h.readProbeOk then RAdapter.watch
  else RAdapter.goproxy

/-- `NewWriter` (writer.go:30-49): the type switch first returns a no-op
adapter for `bufio.ReadWriter`, `*bufio.Writer`, `*bytes.Buffer` and
`*strings.Builder`, and a pass-through `writeCloser` for values already
implementing `ctxio.Writer`; only then is the deadline probe attempted. -/
def NewWriter (h : Handle) : WAdapter :=
  match h.wtype with
  | .bufioReadWriter => WAdapter.nop
  | .bufioWriter => WAdapter.nop
  | .bytesBuffer => WAdapter.nop
  | .stringsBuilder => WAdapter.nop
  | .ctxioWriter => WAdapter.passthrough
  | .plain =>
      if h.hasWriteDeadline && h.writeProbeOk then WAdapter.watch
      else WAdapter.goproxy

/-! ## Idempotent closes (reader.go:90-101, reader.go:225-230,
writer.go:119-124, writer.go:235-240) -/

/-- `watchReader.Close` (reader.go:90-101): close `closed` unless it is
already closed; always return `nil`. The first component is the `closed`
flag after the call. -/
def watchReaderClose (closed : Bool) : Bool × Option Err :=
  if closed then (closed, none) else (true, none)

/-- `goReader.Close` / `goWriter.Close` / `watchWriter.Close`
(reader.go:225-230, writer.go:119-124, writer.go:235-240): a
`sync.Once`-guarded close of `closed`; always returns `nil`. -/
def onceClose (closed : Bool) : Bool × Option Err :=
  if closed then (closed, none) else (true, none)

/-! ## Bulk algorithms (ctxio.go:59-148) -/

/-- One call to a model reader or writer: the count it returned and its
error. Counts are `Int` because Go does not restrict a misbehaving
implementation from returning a negative count. -/
abbrev CallResult := Int × Option Err

/-- The loop of `ReadAtLeast` (ctxio.go:63-67), driven by the successive
results of `r.ReadContext`; returns `none` when the supplied trace is
exhausted while the loop would keep running. The loop runs while
`n < min && err == nil`. -/
def readAtLeastLoop (minB : Nat) : Nat → List (Nat × Option Err) →
    Option (Nat × Option Err)
  | n, trace =>
    if minB ≤ n then some (n, none)
    else
      match trace with
      | [] => none
      | (nn, e) :: rest =>
          match e with
          | some err => some (n + nn, some err)
          | none => readAtLeastLoop minB (n + nn) rest

/-- `ReadAtLeast` (ctxio.go:59-74): the short-buffer guard, the loop, and
the final error adjustment (`n >= min` clears the error; `0 < n` with
`io.EOF` becomes `io.ErrUnexpectedEOF`). `bufLen` is `len(buf)`. -/
def ReadAtLeast (bufLen minB : Nat) (trace : List (Nat × Option Err)) :
    Option (Nat × Option Err) :=
  if bufLen < minB then some (0, some Err.errShortBuffer)
  else
    (readAtLeastLoop minB 0 trace).map fun (n, err) =>
      if minB ≤ n then (n, none)
      else if 0 < n ∧ err = some Err.eof then (n, some Err.errUnexpectedEOF)
      else (n, err)

/-- `ReadFull` (ctxio.go:77-79): `ReadAtLeast` with `min = len(buf)`. -/
def ReadFull (bufLen : Nat) (trace : List (Nat × Option Err)) :
    Option (Nat × Option Err) :=
  ReadAtLeast bufLen bufLen trace

/-- The staging loop of `copyBuffer` (ctxio.go:120-147), driven by the
successive results of `src.ReadContext` and `dst.WriteContext`; `none`
when a trace is exhausted while the loop would keep running. Note that
the statement `written += int64(nw)` (ctxio.go:129) sits inside the
`nw < 0 || nr < nw` branch, after `nw = 0`, so `written` is never
incremented on a successful write. -/
def copyBufferLoop : Int → List CallResult → List CallResult →
    Option (Int × Option Err)
  | _, [], _ => none
  | written, (nr, er) :: srcRest, dst =>
    if 0 < nr then
      match dst with
      | [] => none
      | (nw0, ew0) :: dstRest =>
          let bad := nw0 < 0 ∨ nr < nw0
          let nw : Int := if bad then 0 else nw0
          let ew : Option Err :=
            if bad then (if ew0 = none then some Err.errInvalidWrite else ew0)
            else ew0
          let written' : Int := if bad then written + nw else written
          if ew ≠ none then some (written', ew)
          else if nr ≠ nw then some (written', some Err.errShortWrite)
          else
            match er with
            | some Err.eof => some (written', none)
            | some e => some (written', some e)
            | none => copyBufferLoop written' srcRest dstRest
    else
      match er with
      | some Err.eof => some (written, none)
      | some e => some (written, some e)
      | none => copyBufferLoop written srcRest dst

/-- `copyBuffer` (ctxio.go:105-148) on the generic staging-loop path (the
source exposes no `WriteToContext` and the sink no `ReadFromContext`):
allocate the staging buffer and run the loop with `written = 0`. -/
def copyBufferGeneric (src dst : List CallResult) : Option (Int × Option Err) :=
  copyBufferLoop 0 src dst

/-! ## Theorems -/

/-- C1: the staging loop of `copyBuffer` is supposed to return the total
number of bytes successfully written to the sink, but `written`
(ctxio.go:129) is only incremented inside the invalid-write branch after
`nw = 0`: at a source yielding 3 bytes then EOF and a sink accepting all
3 bytes, the loop returns a count of 0 (with the EOF correctly not
reported as an error), not 3. -/
theorem copyBuffer_drops_successful_count :
    copyBufferGeneric [((3 : Int), none), ((0 : Int), some Err.eof)]
        [((3 : Int), none)] = some ((0 : Int), none) ∧
    some ((0 : Int), (none : Option Err)) ≠
      some ((3 : Int), (none : Option Err)) := by
  constructor
  · rfl
  · decide

/-- C2: with an already-done context, `watchReader.ReadContext`
(reader.go:74-88) and `watchWriter.WriteContext` (writer.go:103-117) still
perform the native call and return its result: the guard
`if r.watchCancel(ctx); err != nil` discards `watchCancel`'s result and
tests the still-`nil` named return, so the early `(0, reason)` return is
dead code. With the native call returning `(5, nil)`, both calls return
`(5, nil)` having performed native I/O. -/
theorem watch_already_done_performs_native_io :
    watchReaderReadContext true Err.canceled 5 none none
        = ⟨5, none, true⟩ ∧
    watchWriterWriteContext true Err.canceled 5 none none
        = ⟨5, none, true⟩ := by
  constructor <;> rfl

/-- Consuming a prefix of `consumed` events advances the `pipe.write` loop
by their sum, as long as the buffer is never drained. -/
theorem writeLoop_consumed_prefix (ctxErr : Err) (rerr werr : Option Err)
    (ns : List Nat) (n rem : Nat) (evs : List WEvent)
    (h : ns.sum < rem) :
    writeLoop ctxErr rerr werr n rem (ns.map WEvent.consumed ++ evs)
      = writeLoop ctxErr rerr werr (n + ns.sum) (rem - ns.sum) evs := by
  induction ns generalizing n rem with
  | nil => simp
  | cons a tl ih =>
      have ha : rem - a > 0 := by
        have := tl.sum.le_add_left a
        simp only [List.sum_cons] at h
        omega
      have htl : tl.sum < rem - a := by
        simp only [List.sum_cons] at h
        omega
      simp only [List.map_cons, List.cons_append, writeLoop, if_pos ha,
        List.append_eq]
      rw [ih (n + a) (rem - a) htl]
      simp only [List.sum_cons]
      congr 1 <;> omega

/-- C3 (counterexample): a pipe write of 3 bytes that hands off 1 byte and
is then interrupted by the signal returns `(0, ctx.Err())`
(pipe.go:95-96), not the total handed off `(1, ctx.Err())` the claim
requires. -/
theorem pipe_write_ctx_discards_progress :
    pipeWrite false false none none Err.canceled 3
        [WEvent.consumed 1, WEvent.ctxFired]
      = some (0, some Err.canceled) ∧
    pipeWrite false false none none Err.canceled 3
        [WEvent.consumed 1, WEvent.ctxFired]
      ≠ some (1, some Err.canceled) := by
  constructor
  · rfl
  · decide

/-- C3 (amended): when a pipe write that has handed off the bytes counted
by `ns` (without draining the buffer) is interrupted because the pipe
becomes done, it returns the total handed off together with the
close-resolution error; when it is interrupted because the signal fires,
it returns 0 together with the signal's reason, discarding the partial
count. -/
theorem pipe_write_interrupt (rerr werr : Option Err) (ctxErr : Err)
    (bLen : Nat) (ns : List Nat) (rest : List WEvent)
    (h : ns.sum < bLen) :
    pipeWrite false false rerr werr ctxErr bLen
        (ns.map WEvent.consumed ++ WEvent.pipeDone :: rest)
      = some (ns.sum, some (writeCloseError rerr werr)) ∧
    pipeWrite false false rerr werr ctxErr bLen
        (ns.map WEvent.consumed ++ WEvent.ctxFired :: rest)
      = some (0, some ctxErr) := by
  constructor <;>
    simp [pipeWrite, writeLoop_consumed_prefix _ _ _ _ _ _ _ h, writeLoop]

/-- Witness for the amended C3 theorem: one byte handed off out of three,
then each kind of interruption. -/
theorem pipe_write_interrupt_witness :
    pipeWrite false false none none Err.canceled 3
        (List.map WEvent.consumed [1] ++ WEvent.pipeDone :: [])
      = some (List.sum [1], some (writeCloseError none none)) ∧
    pipeWrite false false none none Err.canceled 3
        (List.map WEvent.consumed [1] ++ WEvent.ctxFired :: [])
      = some (0, some Err.canceled) :=
  pipe_write_interrupt none none Err.canceled 3 [1] [] (by decide)

/-- C4 (counterexample): closing the read end with `io.ErrShortWrite`
stores it in the read-side cell, yet a stuck read then observes the
generic `io.ErrClosedPipe` (pipe.go:114-120), not the side's own recorded
error; symmetrically for a stuck write whose own cell holds
`io.ErrShortWrite`. -/
theorem closeError_own_error_ignored :
    readCloseError (some Err.errShortWrite) none = Err.errClosedPipe ∧
    writeCloseError none (some Err.errShortWrite) = Err.errClosedPipe ∧
    Err.errClosedPipe ≠ Err.errShortWrite := by
  refine ⟨rfl, rfl, ?_⟩
  decide

/-- C4 (amended): when a pipe operation fails because the pipe is done,
the remote side's recorded error is returned when it is set and the stuck
side's own cell is unset; in every other case (own cell set, or neither
cell set) the generic `io.ErrClosedPipe` is returned. -/
theorem closeError_resolution (rerr werr : Option Err) (e : Err) :
    readCloseError none (some e) = e ∧
    readCloseError (some e) werr = Err.errClosedPipe ∧
    readCloseError rerr none = Err.errClosedPipe ∧
    writeCloseError (some e) none = e ∧
    writeCloseError rerr (some e) = Err.errClosedPipe ∧
    writeCloseError none none = Err.errClosedPipe := by
  cases rerr <;> cases werr <;>
    simp [readCloseError, writeCloseError]

/-- C5 (counterexample): wrapping a `*bytes.Buffer`, which offers no
deadline capability, does not produce the goroutine-proxy adapter: the
type switch in `NewWriter` (writer.go:31-42) returns the no-op adapter
before any probe is attempted. -/
theorem newWriter_bytesBuffer_not_goproxy :
    NewWriter ⟨false, false, false, false, WriterType.bytesBuffer⟩
        = WAdapter.nop ∧
    WAdapter.nop ≠ WAdapter.goproxy := by
  constructor
  · rfl
  · decide

/-- C5 (amended): `NewReader` selects by the one-time deadline probe
(success gives the deadline-racing adapter, failure or a missing
capability the goroutine-proxy adapter); `NewWriter` selects the same way
only for plain writers — known in-memory writer types are special-cased
to the no-op adapter, and writers already implementing the context-aware
interface to the pass-through wrapper, before the probe. -/
theorem adapter_selection (rd rp wd wp : Bool) (t : WriterType) :
    (NewReader ⟨rd, rp, wd, wp, t⟩ = RAdapter.watch ↔ rd ∧ rp) ∧
    (NewReader ⟨rd, rp, wd, wp, t⟩ = RAdapter.goproxy ↔ ¬(rd ∧ rp)) ∧
    (t = WriterType.plain →
      ((NewWriter ⟨rd, rp, wd, wp, t⟩ = WAdapter.watch ↔ wd ∧ wp) ∧
       (NewWriter ⟨rd, rp, wd, wp, t⟩ = WAdapter.goproxy ↔ ¬(wd ∧ wp)))) ∧
    (t = WriterType.bufioReadWriter ∨ t = WriterType.bufioWriter ∨
        t = WriterType.bytesBuffer ∨ t = WriterType.stringsBuilder →
      NewWriter ⟨rd, rp, wd, wp, t⟩ = WAdapter.nop) ∧
    (t = WriterType.ctxioWriter →
      NewWriter ⟨rd, rp, wd, wp, t⟩ = WAdapter.passthrough) := by
  cases rd <;> cases rp <;> cases wd <;> cases wp <;> cases t <;> decide

/-- Witness for the amended C5 theorem: a plain writer whose deadline
probe succeeds gets the deadline-racing adapter. -/
theorem adapter_selection_witness :
    NewWriter ⟨false, false, true, true, WriterType.plain⟩
      = WAdapter.watch :=
  ((adapter_selection false false true true WriterType.plain).2.2.1
    rfl).1.mpr (by decide)

/-- C6: `ReadAtLeast` with buffer length `L ≥ M` reads repeatedly until at
least `M` bytes or an error (the loop `readAtLeastLoop`); end-of-data
after exactly 0 bytes is propagated unchanged, end-of-data after
`0 < k < M` bytes becomes `io.ErrUnexpectedEOF`, and `n ≥ M` yields a
`nil` error; `ReadFull` is `ReadAtLeast` with `M = L`. -/
theorem readAtLeast_spec (bufLen minB : Nat)
    (trace : List (Nat × Option Err)) (n : Nat) (e : Option Err)
    (hML : minB ≤ bufLen)
    (hloop : readAtLeastLoop minB 0 trace = some (n, e)) :
    (ReadFull bufLen trace = ReadAtLeast bufLen bufLen trace) ∧
    (n = 0 → e = some Err.eof →
      ReadAtLeast bufLen minB trace = some (0, some Err.eof)) ∧
    (0 < n → n < minB → e = some Err.eof →
      ReadAtLeast bufLen minB trace = some (n, some Err.errUnexpectedEOF)) ∧
    (minB ≤ n → ReadAtLeast bufLen minB trace = some (n, none)) := by
  refine ⟨rfl, ?_, ?_, ?_⟩
  · intro hn he
    subst hn; subst he
    have hm : minB ≠ 0 := by
      intro h0
      subst h0
      cases trace with
      | nil => simp [readAtLeastLoop] at hloop
      | cons hd tl => simp [readAtLeastLoop] at hloop
    unfold ReadAtLeast
    rw [if_neg (by omega), hloop]
    simp only [Option.map_some']
    rw [if_neg (by omega), if_neg (by decide)]
  · intro h1 h2 he
    subst he
    unfold ReadAtLeast
    rw [if_neg (by omega), hloop]
    simp only [Option.map_some']
    rw [if_neg (by omega)]
    simp [h1]
  · intro hn
    unfold ReadAtLeast
    rw [if_neg (by omega), hloop]
    simp only [Option.map_some']
    rw [if_pos hn]

/-- Witness for C6: a buffer of length 4 with minimum 3 against a reader
yielding 1 byte, then 1 byte together with end-of-data: the result is
`(2, unexpected end)`. -/
theorem readAtLeast_spec_witness :
    ReadAtLeast 4 3 [(1, none), (1, some Err.eof)]
      = some (2, some Err.errUnexpectedEOF) :=
  (readAtLeast_spec 4 3 [(1, none), (1, some Err.eof)] 2 (some Err.eof)
      (by decide) (by decide)).2.2.1 (by decide) (by decide) rfl

/-- C7: every close is an idempotent success: both pipe closes return
`nil` and a second close leaves the pipe state untouched, the once-only
cells never overwrite their first stored value, and the adapter closes
return `nil` and are no-ops when repeated. -/
theorem close_idempotent (p : PipeState) (e1 e2 : Option Err) (c : Bool)
    (x : Err) (y : Option Err) :
    ((closeRead p e1).2 = none ∧ (closeRead (closeRead p e1).1 e2).2 = none ∧
      (closeRead (closeRead p e1).1 e2).1 = (closeRead p e1).1) ∧
    ((closeWrite p e1).2 = none ∧
      (closeWrite (closeWrite p e1).1 e2).2 = none ∧
      (closeWrite (closeWrite p e1).1 e2).1 = (closeWrite p e1).1) ∧
    onceStore (some x) y = some x ∧
    ((watchReaderClose c).2 = none ∧
      watchReaderClose (watchReaderClose c).1 = ((watchReaderClose c).1, none)) ∧
    ((onceClose c).2 = none ∧
      onceClose (onceClose c).1 = ((onceClose c).1, none)) := by
  obtain ⟨rerr, werr, d⟩ := p
  cases rerr <;> cases werr <;> cases e1 <;> cases e2 <;> cases c <;>
    simp [closeRead, closeWrite, onceStore, watchReaderClose, onceClose]

/-- C8: a pipe read racing a pending write of `src` into a destination of
length `dstLen` copies exactly `min dstLen src.length` leading bytes of
`src`, reports that count back to the writer, and returns it with a `nil`
error; when the destination holds the whole write, the paired write
returns `(src.length, nil)`. -/
theorem pipe_rendezvous_transfer (src : List Nat) (dstLen : Nat)
    (rerr werr : Option Err) (ctxErr : Err) :
    pipeRead false false rerr werr ctxErr dstLen (REvent.dataAvail src)
      = ⟨min dstLen src.length, src.take dstLen,
          some (min dstLen src.length), none⟩ ∧
    (src.length ≤ dstLen →
      pipeWrite false false rerr werr ctxErr src.length
          [WEvent.consumed src.length]
        = some (src.length, none)) := by
  constructor
  · rfl
  · intro _
    simp [pipeWrite, writeLoop]

/-- Witness for C8: the 12-byte write "hello, world" read with a 64-byte
buffer yields `(12, the 12 bytes, nil)` for the read and `(12, nil)` for
the write. -/
theorem pipe_rendezvous_transfer_witness :
    pipeRead false false none none Err.canceled 64
        (REvent.dataAvail [104, 101, 108, 108, 111, 44, 32, 119, 111, 114, 108, 100])
      = ⟨12, [104, 101, 108, 108, 111, 44, 32, 119, 111, 114, 108, 100],
          some 12, none⟩ ∧
    pipeWrite false false none none Err.canceled 12 [WEvent.consumed 12]
      = some (12, none) := by
  have h := pipe_rendezvous_transfer
    [104, 101, 108, 108, 111, 44, 32, 119, 111, 114, 108, 100] 64
    none none Err.canceled
  exact ⟨h.1, by simpa using h.2 (by decide)⟩

/-- C9: `goReader.ReadContext` with a zero-length destination returns
`(0, nil)` with the reader state untouched and no channel or signal
observed, whatever the select outcomes, context state, or buffered bytes
would have been. -/
theorem goReader_zero_length_read (st : GoReaderState) (ctxErr : Err)
    (ev : GEvent) :
    goReaderReadContext st ctxErr 0 ev = ⟨st, 0, [], none, false⟩ := by
  simp [goReaderReadContext]

/-- C10: a pipe read never combines transferred bytes with a failure: a
non-`nil` error comes with a count of exactly 0, and a positive count
comes with a `nil` error. -/
theorem pipe_read_no_partial_error (d c : Bool) (rerr werr : Option Err)
    (ctxErr : Err) (dstLen : Nat) (ev : REvent) :
    ((pipeRead d c rerr werr ctxErr dstLen ev).err ≠ none →
      (pipeRead d c rerr werr ctxErr dstLen ev).n = 0) ∧
    (0 < (pipeRead d c rerr werr ctxErr dstLen ev).n →
      (pipeRead d c rerr werr ctxErr dstLen ev).err = none) := by
  cases d <;> cases c <;> cases ev <;>
    simp [pipeRead]

/-- Witness for C10: a read against a pipe that is already done fails with
a count of 0. -/
theorem pipe_read_no_partial_error_witness :
    (pipeRead true false none none Err.canceled 4 REvent.pipeDone).n = 0 :=
  (pipe_read_no_partial_error true false none none Err.canceled 4
      REvent.pipeDone).1 (by decide)

end Ctxio
